import Mathlib

/-!
Shallow embedding of the `background-remove` repository's model-lifecycle
wrapper (`src/utils/backgroundRemoval.ts`), its interaction-layer
configuration-change handler (`src/App.tsx`, `handleConfigChange`) and the
settings panel's output-update helper (`src/components/ConfigPanel.tsx`,
`updateOutputConfig`).

The wrapper owns one module-wide boolean `isModelLoaded`.  All external
effects (the `preload` and `removeBackground` primitives of
`@imgly/background-removal`, and `console.error` diagnostics) are modelled
explicitly: an `Env` oracle decides the outcome of each external call, and
every function returns, besides its `Except` result, the new flag value,
the list of external calls it performed and the diagnostic-log entries it
wrote.  Asynchronous `await` points are sequential here, matching the
spec's single-threaded cooperative model.
-/

/-- Errors thrown by the external library (arbitrary JS error values). -/
abbrev Err := String

/-- An input image file (opaque to the wrapper). -/
abbrev File := String

/-- A result blob produced by the external inference call (opaque here). -/
abbrev Blob := String

/-- The nested `output` record of the library's `Config`:
`format` is one of `image/png` / `image/jpeg` / `image/webp`,
`quality` lies in `[0,1]`, `type` is `foreground` / `background` / `mask`. -/
structure OutputConfig where
  format : String
  quality : ℚ
  type : String
deriving DecidableEq, Repr

/-- The library's `Config` object as used by the repository:
`debug`, `device` (`cpu`/`gpu`), `model` (`isnet`/`isnet_fp16`/`isnet_quint8`)
and the nested `output` record. -/
structure Config where
  debug : Bool
  device : String
  model : String
  output : OutputConfig
deriving DecidableEq, Repr

/-- `defaultConfig` from `backgroundRemoval.ts` lines 6-15. -/
def defaultConfig : Config :=
  { debug := false
    device := "cpu"
    model := "isnet_fp16"
    output :=
      { format := "image/png"
        quality := 0.8
        type := "foreground" } }

/-- The argument object `{model, debug, device}` passed to the external
`preload` primitive (`backgroundRemoval.ts` lines 21-25). -/
structure PreloadArgs where
  model : String
  debug : Bool
  device : String
deriving DecidableEq, Repr

/-- The subset of a configuration forwarded to `preload`. -/
def preloadArgs (config : Config) : PreloadArgs :=
  { model := config.model, debug := config.debug, device := config.device }

/-- Oracle for the external library: the outcome of each `preload` call and
each `removeBackground` call, as a function of its arguments. -/
structure Env where
  preloadOutcome : PreloadArgs → Except Err Unit
  removeBackground : File → Config → Except Err Blob

/-- Outcome of one `loadModel` call: the returned/thrown value, the
`isModelLoaded` flag afterwards, the external `preload` invocations it
performed, and the `console.error` entries it wrote (message, raw error). -/
structure LoadOutcome where
  result : Except Err Unit
  loaded : Bool
  preloadCalls : List PreloadArgs
  log : List (String × Err)
deriving Repr

/-- `loadModel` (`backgroundRemoval.ts` lines 17-32), with the module flag
`isModelLoaded` passed in explicitly.  If the flag is set the body is
skipped entirely; otherwise `preload` is invoked with the model-relevant
subset of the configuration; success sets the flag, failure logs
`Failed to preload model:` with the raw error and re-throws it. -/
def loadModel (env : Env) (isModelLoaded : Bool) (config : Config) : LoadOutcome :=
  if isModelLoaded then
    { result := Except.ok ()
      loaded := isModelLoaded
      preloadCalls := []
      log := [] }
  else
    match env.preloadOutcome (preloadArgs config) with
    | Except.ok () =>
        { result := Except.ok ()
          loaded := true
          preloadCalls := [preloadArgs config]
          log := [] }
    | Except.error e =>
        { result := Except.error e
          loaded := isModelLoaded
          preloadCalls := [preloadArgs config]
          log := [("Failed to preload model:", e)] }

/-- The fixed user-facing message `new Error('背景去除失败，请重试')` thrown by
`processImageBackgroundRemoval` on any failure inside its `try` block. -/
def genericProcessError : Err := "背景去除失败，请重试"

/-- Outcome of one `processImageBackgroundRemoval` call: result or thrown
error, the flag afterwards, how many times `loadModel` was entered, the
external calls performed and the diagnostic log written. -/
structure ProcOutcome where
  result : Except Err Blob
  loaded : Bool
  loadCalls : Nat
  preloadCalls : List PreloadArgs
  inferCalls : List (File × Config)
  log : List (String × Err)
deriving Repr

/-- `processImageBackgroundRemoval` (`backgroundRemoval.ts` lines 34-51).
Inside one `try`: if the flag is unset, `loadModel config` runs first
(lazy load); then `removeBackground(imageFile, config)` runs.  Any error
from either step is caught by the single `catch`, logged as
`Background removal failed:` with the raw error, and replaced by the fixed
generic error. -/
def processImageBackgroundRemoval (env : Env) (isModelLoaded : Bool)
    (imageFile : File) (config : Config) : ProcOutcome :=
  let loadStep : LoadOutcome :=
    if isModelLoaded then
      { result := Except.ok (), loaded := isModelLoaded, preloadCalls := [], log := [] }
    else
      loadModel env isModelLoaded config
  match loadStep.result with
  | Except.error e =>
      { result := Except.error genericProcessError
        loaded := loadStep.loaded
        loadCalls := if isModelLoaded then 0 else 1
        preloadCalls := loadStep.preloadCalls
        inferCalls := []
        log := loadStep.log ++ [("Background removal failed:", e)] }
  | Except.ok () =>
      match env.removeBackground imageFile config with
      | Except.ok blob =>
          { result := Except.ok blob
            loaded := loadStep.loaded
            loadCalls := if isModelLoaded then 0 else 1
            preloadCalls := loadStep.preloadCalls
            inferCalls := [(imageFile, config)]
            log := loadStep.log }
      | Except.error e =>
          { result := Except.error genericProcessError
            loaded := loadStep.loaded
            loadCalls := if isModelLoaded then 0 else 1
            preloadCalls := loadStep.preloadCalls
            inferCalls := [(imageFile, config)]
            log := loadStep.log ++ [("Background removal failed:", e)] }

/-- `isModelReady` (`backgroundRemoval.ts` lines 54-56): pure read of the
flag. -/
def isModelReady (isModelLoaded : Bool) : Bool := isModelLoaded

/-- `resetModel` (`backgroundRemoval.ts` lines 59-61): unconditionally
clears the flag. -/
def resetModel (_isModelLoaded : Bool) : Bool := false

/-- The interaction layer's view of the system, sequentialised as the spec's
§5 prescribes: the active configuration (React state `config`), the
wrapper's module flag, plus two history variables — `loadedArgs`, the
argument object of the last successful external preload (set exactly when
the flag transitions from false to true), and `preloadTrace`, every
external preload invocation so far. -/
structure AppState where
  config : Config
  loaded : Bool
  loadedArgs : Option PreloadArgs
  preloadTrace : List PreloadArgs
deriving Repr

/-- The condition tested by `handleConfigChange` (`App.tsx` lines 47-51):
the new configuration differs from the old one on `model`, `device` or
`debug`. -/
def modelRelevantChanged (oldConfig newConfig : Config) : Prop :=
  newConfig.model ≠ oldConfig.model ∨ newConfig.device ≠ oldConfig.device ∨
    newConfig.debug ≠ oldConfig.debug

instance (oldConfig newConfig : Config) :
    Decidable (modelRelevantChanged oldConfig newConfig) := by
  unfold modelRelevantChanged
  infer_instance

/-- Fold one `loadModel` outcome into the app state: record the new flag,
append the preload invocations to the trace, and (history variable) when
the flag transitions false → true remember which arguments were preloaded. -/
def applyLoadOutcome (s : AppState) (config : Config) (r : LoadOutcome) : AppState :=
  { s with
      config := config
      loaded := r.loaded
      preloadTrace := s.preloadTrace ++ r.preloadCalls
      loadedArgs :=
        if s.loaded = false ∧ r.loaded = true then some (preloadArgs config)
        else s.loadedArgs }

/-- One operation on the lifecycle wrapper, as driven by the interaction
layer; each operation carries the external library's behaviour for its
duration. -/
inductive Op where
  | loadOp (env : Env)
  | resetOp
  | configChangeOp (env : Env) (newConfig : Config)
  | processOp (env : Env) (imageFile : File)

/-- Sequential step function.  `loadOp` is the `useEffect` preload
(`App.tsx` lines 25-40); `resetOp` is a bare `resetModel()`;
`configChangeOp` is `handleConfigChange` (`App.tsx` lines 43-68): store the
new configuration, and when a model-relevant field changed, `resetModel()`
then `loadModel(newConfig)`; `processOp` is a call to
`processImageBackgroundRemoval` with the current configuration. -/
def step (s : AppState) : Op → AppState
  | Op.loadOp env => applyLoadOutcome s s.config (loadModel env s.loaded s.config)
  | Op.resetOp => { s with loaded := resetModel s.loaded }
  | Op.configChangeOp env newConfig =>
      if modelRelevantChanged s.config newConfig then
        let s1 : AppState := { s with config := newConfig, loaded := resetModel s.loaded }
        applyLoadOutcome s1 newConfig (loadModel env s1.loaded newConfig)
      else
        { s with config := newConfig }
  | Op.processOp env imageFile =>
      let r := processImageBackgroundRemoval env s.loaded imageFile s.config
      { s with
          loaded := r.loaded
          preloadTrace := s.preloadTrace ++ r.preloadCalls
          loadedArgs :=
            if s.loaded = false ∧ r.loaded = true then some (preloadArgs s.config)
            else s.loadedArgs }

/-- Initial app state: default configuration, flag unset, nothing preloaded
(`App.tsx` lines 14-22, `backgroundRemoval.ts` line 3). -/
def initAppState : AppState :=
  { config := defaultConfig, loaded := false, loadedArgs := none, preloadTrace := [] }

/-- Run a sequence of operations from the initial state. -/
def run (ops : List Op) : AppState :=
  ops.foldl step initAppState

/-- The readiness flag is only up when the arguments of the last successful
preload agree with the current configuration. -/
def ReadyConsistent (s : AppState) : Prop :=
  s.loaded = true → s.loadedArgs = some (preloadArgs s.config)

/-- A partial update of the nested output record, as built by the settings
panel: each field is either replaced or kept. -/
structure OutputUpdate where
  format : Option String
  quality : Option ℚ
  type : Option String
deriving Repr

/-- `updateOutputConfig` (`ConfigPanel.tsx` lines 22-27): spread the
partial update over the nested `output` record, leaving `debug`, `device`
and `model` untouched. -/
def updateOutputConfig (config : Config) (updates : OutputUpdate) : Config :=
  { config with
      output :=
        { format := updates.format.getD config.output.format
          quality := updates.quality.getD config.output.quality
          type := updates.type.getD config.output.type } }

/-- `loadModel` with its optional parameter: TypeScript default-parameter
semantics of `loadModel(config: Config = defaultConfig)` — an omitted
argument (`none`) is replaced by `defaultConfig`. -/
def loadModelWithDefault (env : Env) (isModelLoaded : Bool)
    (configArg : Option Config) : LoadOutcome :=
  loadModel env isModelLoaded (configArg.getD defaultConfig)

/-- `processImageBackgroundRemoval` with its optional parameter: an omitted
configuration argument is replaced by `defaultConfig`. -/
def processImageWithDefault (env : Env) (isModelLoaded : Bool)
    (imageFile : File) (configArg : Option Config) : ProcOutcome :=
  processImageBackgroundRemoval env isModelLoaded imageFile (configArg.getD defaultConfig)

/-- An external library in which both `preload` and `removeBackground`
succeed. -/
def envOk : Env :=
  { preloadOutcome := fun _ => Except.ok ()
    removeBackground := fun _ _ => Except.ok "blob" }

/-- An external library whose `preload` fails with the given error. -/
def envPreloadFail (e : Err) : Env :=
  { preloadOutcome := fun _ => Except.error e
    removeBackground := fun _ _ => Except.ok "blob" }

/-- An external library whose `preload` succeeds but whose
`removeBackground` fails with the given error. -/
def envInferFail (e : Err) : Env :=
  { preloadOutcome := fun _ => Except.ok ()
    removeBackground := fun _ _ => Except.error e }

/-- If the change keeps `model`, `device` and `debug`, the preload argument
object is unchanged. -/
theorem preloadArgs_eq_of_not_relevantChanged {c c' : Config}
    (h : ¬ modelRelevantChanged c c') : preloadArgs c' = preloadArgs c := by
  unfold modelRelevantChanged at h
  push_neg at h
  obtain ⟨h1, h2, h3⟩ := h
  unfold preloadArgs
  rw [h1, h2, h3]

/-- One step of the interaction layer preserves the readiness/configuration
consistency invariant. -/
theorem readyConsistent_step (s : AppState) (op : Op) (h : ReadyConsistent s) :
    ReadyConsistent (step s op) := by
  cases op with
  | loadOp env =>
      cases hsl : s.loaded with
      | true =>
          intro _
          simpa [step, applyLoadOutcome, loadModel, hsl] using h hsl
      | false =>
          cases hpre : env.preloadOutcome (preloadArgs s.config) with
          | ok u =>
              cases u
              intro _
              simp [step, applyLoadOutcome, loadModel, hsl, hpre]
          | error e =>
              intro hl
              simp [step, applyLoadOutcome, loadModel, hsl, hpre] at hl
  | resetOp =>
      intro hl
      simp [step, resetModel] at hl
  | configChangeOp env newConfig =>
      by_cases hch : modelRelevantChanged s.config newConfig
      · cases hpre : env.preloadOutcome (preloadArgs newConfig) with
        | ok u =>
            cases u
            intro _
            simp [step, hch, applyLoadOutcome, loadModel, resetModel, hpre]
        | error e =>
            intro hl
            simp [step, hch, applyLoadOutcome, loadModel, resetModel, hpre] at hl
      · intro hl
        simp [step, hch] at hl ⊢
        rw [preloadArgs_eq_of_not_relevantChanged hch]
        exact h hl
  | processOp env imageFile =>
      cases hsl : s.loaded with
      | true =>
          cases hrb : env.removeBackground imageFile s.config with
          | ok blob =>
              intro _
              simpa [step, processImageBackgroundRemoval, hsl, hrb] using h hsl
          | error e =>
              intro _
              simpa [step, processImageBackgroundRemoval, hsl, hrb] using h hsl
      | false =>
          cases hpre : env.preloadOutcome (preloadArgs s.config) with
          | ok u =>
              cases u
              cases hrb : env.removeBackground imageFile s.config with
              | ok blob =>
                  intro _
                  simp [step, processImageBackgroundRemoval, loadModel, hsl, hpre, hrb]
              | error e =>
                  intro _
                  simp [step, processImageBackgroundRemoval, loadModel, hsl, hpre, hrb]
          | error e =>
              intro hl
              simp [step, processImageBackgroundRemoval, loadModel, hsl, hpre] at hl

/-- The invariant is preserved along any fold of steps. -/
theorem readyConsistent_foldl (ops : List Op) (s : AppState) (h : ReadyConsistent s) :
    ReadyConsistent (ops.foldl step s) := by
  induction ops generalizing s with
  | nil => exact h
  | cons op rest ih => exact ih _ (readyConsistent_step s op h)

/-- Claim C1: for every sequence of operations on the lifecycle wrapper as
driven by the interaction layer, the readiness flag is never true unless a
preload consistent with the current configuration completed: whenever
`(run ops).loaded` is true, the arguments of the last successful external
preload are exactly the model-relevant part (`model`, `device`, `debug`)
of the current configuration. -/
theorem readiness_never_true_without_consistent_load (ops : List Op)
    (h : (run ops).loaded = true) :
    (run ops).loadedArgs = some (preloadArgs (run ops).config) := by
  have hinit : ReadyConsistent initAppState := by
    intro hl
    simp [initAppState] at hl
  exact readyConsistent_foldl ops initAppState hinit h

theorem readiness_never_true_without_consistent_load_witness :
    (run [Op.loadOp envOk]).loaded = true ∧
      (run [Op.loadOp envOk]).loadedArgs =
        some (preloadArgs (run [Op.loadOp envOk]).config) :=
  ⟨rfl, readiness_never_true_without_consistent_load [Op.loadOp envOk] rfl⟩

/-- Claim C2: if the external preload fails with error `e` while the flag
is down, `loadModel` re-raises exactly `e` untranslated, the readiness
flag remains false, and the failure is written to the diagnostic
channel. -/
theorem load_failure_propagates_original_error (env : Env) (config : Config) (e : Err)
    (h : env.preloadOutcome (preloadArgs config) = Except.error e) :
    (loadModel env false config).result = Except.error e ∧
      isModelReady (loadModel env false config).loaded = false ∧
      (loadModel env false config).log = [("Failed to preload model:", e)] := by
  simp [loadModel, isModelReady, h]

theorem load_failure_propagates_original_error_witness :
    (envPreloadFail "boom").preloadOutcome (preloadArgs defaultConfig) =
        Except.error "boom" ∧
      ((loadModel (envPreloadFail "boom") false defaultConfig).result =
          Except.error "boom" ∧
        isModelReady (loadModel (envPreloadFail "boom") false defaultConfig).loaded = false ∧
        (loadModel (envPreloadFail "boom") false defaultConfig).log =
          [("Failed to preload model:", "boom")]) :=
  ⟨rfl, load_failure_propagates_original_error (envPreloadFail "boom") defaultConfig "boom" rfl⟩

/-- Claim C3: if the external inference call fails with error `e` (the
load step having passed, either because the flag was up or because the
lazy preload succeeds), `processImageBackgroundRemoval` raises the one
fixed generic message — independent of `e` — and `e` goes to the
diagnostic log. -/
theorem inference_failure_generic_error (env : Env) (isModelLoaded : Bool)
    (imageFile : File) (config : Config) (e : Err)
    (hload : isModelLoaded = true ∨
      env.preloadOutcome (preloadArgs config) = Except.ok ())
    (hrb : env.removeBackground imageFile config = Except.error e) :
    (processImageBackgroundRemoval env isModelLoaded imageFile config).result =
        Except.error genericProcessError ∧
      ("Background removal failed:", e) ∈
        (processImageBackgroundRemoval env isModelLoaded imageFile config).log := by
  rcases hload with hl | hp
  · subst hl
    simp [processImageBackgroundRemoval, hrb]
  · cases hsl : isModelLoaded with
    | true => simp [processImageBackgroundRemoval, hrb]
    | false => simp [processImageBackgroundRemoval, loadModel, hp, hrb]

theorem inference_failure_generic_error_witness :
    ((true : Bool) = true ∨
        (envInferFail "oom").preloadOutcome (preloadArgs defaultConfig) = Except.ok ()) ∧
      (envInferFail "oom").removeBackground "photo.png" defaultConfig = Except.error "oom" ∧
      ((processImageBackgroundRemoval (envInferFail "oom") true "photo.png" defaultConfig).result =
          Except.error genericProcessError ∧
        ("Background removal failed:", "oom") ∈
          (processImageBackgroundRemoval (envInferFail "oom") true "photo.png" defaultConfig).log) :=
  ⟨Or.inl rfl, rfl,
    inference_failure_generic_error (envInferFail "oom") true "photo.png" defaultConfig "oom"
      (Or.inl rfl) rfl⟩

/-- Claim C4: `loadModel` with the flag already up returns successfully
without any external preload call; hence two successive loads, the first
one successful, perform exactly one preload invocation in total. -/
theorem load_idempotent_no_second_preload (env env2 : Env) (c c2 : Config)
    (h : env.preloadOutcome (preloadArgs c) = Except.ok ()) :
    (loadModel env2 true c2).preloadCalls = [] ∧
      (loadModel env2 true c2).result = Except.ok () ∧
      (loadModel env false c).loaded = true ∧
      (loadModel env false c).preloadCalls ++
          (loadModel env2 (loadModel env false c).loaded c2).preloadCalls =
        [preloadArgs c] := by
  refine ⟨rfl, rfl, ?_, ?_⟩ <;> simp [loadModel, h]

theorem load_idempotent_no_second_preload_witness :
    envOk.preloadOutcome (preloadArgs defaultConfig) = Except.ok () ∧
      ((loadModel envOk true defaultConfig).preloadCalls = [] ∧
        (loadModel envOk true defaultConfig).result = Except.ok () ∧
        (loadModel envOk false defaultConfig).loaded = true ∧
        (loadModel envOk false defaultConfig).preloadCalls ++
            (loadModel envOk (loadModel envOk false defaultConfig).loaded defaultConfig).preloadCalls =
          [preloadArgs defaultConfig]) :=
  ⟨rfl, load_idempotent_no_second_preload envOk envOk defaultConfig defaultConfig rfl⟩

/-- Claim C5: `processImageBackgroundRemoval` enters `loadModel` exactly
once when the flag is down and never when it is up, and whenever the
external inference primitive is invoked the readiness flag is true at
(and after) that point: every call transits through the READY state
before attempting inference. -/
theorem process_transits_through_ready (env : Env) (isModelLoaded : Bool)
    (imageFile : File) (config : Config) :
    (processImageBackgroundRemoval env isModelLoaded imageFile config).loadCalls =
        (if isModelLoaded then 0 else 1) ∧
      ((processImageBackgroundRemoval env isModelLoaded imageFile config).inferCalls ≠ [] →
        isModelReady
          (processImageBackgroundRemoval env isModelLoaded imageFile config).loaded = true) := by
  cases hsl : isModelLoaded with
  | true =>
      cases hrb : env.removeBackground imageFile config with
      | ok blob => simp [processImageBackgroundRemoval, isModelReady, hrb]
      | error e => simp [processImageBackgroundRemoval, isModelReady, hrb]
  | false =>
      cases hpre : env.preloadOutcome (preloadArgs config) with
      | ok u =>
          cases u
          cases hrb : env.removeBackground imageFile config with
          | ok blob => simp [processImageBackgroundRemoval, loadModel, isModelReady, hpre, hrb]
          | error e => simp [processImageBackgroundRemoval, loadModel, isModelReady, hpre, hrb]
      | error e =>
          simp [processImageBackgroundRemoval, loadModel, isModelReady, hpre]

theorem process_transits_through_ready_witness :
    (processImageBackgroundRemoval envOk false "image.png" defaultConfig).inferCalls ≠ [] ∧
      isModelReady
        (processImageBackgroundRemoval envOk false "image.png" defaultConfig).loaded = true :=
  ⟨by decide,
    (process_transits_through_ready envOk false "image.png" defaultConfig).2 (by decide)⟩

/-- Claim C6: when the flag is down and the lazy load inside
`processImageBackgroundRemoval` fails with error `e`, the caller receives
the fixed generic inference-failure message (not `e`): the lazy load runs
inside the same `catch` that translates inference failures, `e` reaches
only the diagnostic log, and inference is never attempted. -/
theorem process_lazy_load_failure_generic (env : Env) (imageFile : File)
    (config : Config) (e : Err)
    (h : env.preloadOutcome (preloadArgs config) = Except.error e) :
    (processImageBackgroundRemoval env false imageFile config).result =
        Except.error genericProcessError ∧
      (processImageBackgroundRemoval env false imageFile config).log =
        [("Failed to preload model:", e), ("Background removal failed:", e)] ∧
      (processImageBackgroundRemoval env false imageFile config).inferCalls = [] ∧
      isModelReady (processImageBackgroundRemoval env false imageFile config).loaded = false := by
  simp [processImageBackgroundRemoval, loadModel, isModelReady, h]

theorem process_lazy_load_failure_generic_witness :
    (envPreloadFail "net").preloadOutcome (preloadArgs defaultConfig) = Except.error "net" ∧
      ((processImageBackgroundRemoval (envPreloadFail "net") false "cat.png" defaultConfig).result =
          Except.error genericProcessError ∧
        (processImageBackgroundRemoval (envPreloadFail "net") false "cat.png" defaultConfig).log =
          [("Failed to preload model:", "net"), ("Background removal failed:", "net")] ∧
        (processImageBackgroundRemoval (envPreloadFail "net") false "cat.png" defaultConfig).inferCalls = [] ∧
        isModelReady
          (processImageBackgroundRemoval (envPreloadFail "net") false "cat.png" defaultConfig).loaded = false) :=
  ⟨rfl, process_lazy_load_failure_generic (envPreloadFail "net") "cat.png" defaultConfig "net" rfl⟩

/-- Claim C7: for every configuration, if `loadModel` completes
successfully then `isModelReady` on the resulting flag returns true. -/
theorem isReady_after_successful_load (env : Env) (isModelLoaded : Bool) (config : Config)
    (h : (loadModel env isModelLoaded config).result = Except.ok ()) :
    isModelReady (loadModel env isModelLoaded config).loaded = true := by
  cases hsl : isModelLoaded with
  | true => simp [loadModel, isModelReady]
  | false =>
      cases hpre : env.preloadOutcome (preloadArgs config) with
      | ok u => cases u; simp [loadModel, isModelReady, hpre]
      | error e =>
          subst hsl
          simp [loadModel, hpre] at h

theorem isReady_after_successful_load_witness :
    (loadModel envOk false defaultConfig).result = Except.ok () ∧
      isModelReady (loadModel envOk false defaultConfig).loaded = true :=
  ⟨rfl, isReady_after_successful_load envOk false defaultConfig rfl⟩

/-- Claim C8: after `resetModel`, `isModelReady` returns false whatever
the prior value of the flag was. -/
theorem isReady_false_after_reset (isModelLoaded : Bool) :
    isModelReady (resetModel isModelLoaded) = false := rfl

/-- Claim C9: a configuration change produced by the settings panel's
output-record update — which can touch only `output.format`,
`output.quality` and `output.type` — makes `handleConfigChange` store the
new configuration and nothing else: no `resetModel`, no reload, the
readiness flag, the recorded loaded model and the preload trace are all
unchanged. -/
theorem output_only_change_preserves_readiness (s : AppState) (env : Env)
    (updates : OutputUpdate) :
    step s (Op.configChangeOp env (updateOutputConfig s.config updates)) =
      { s with config := updateOutputConfig s.config updates } := by
  have hch : ¬ modelRelevantChanged s.config (updateOutputConfig s.config updates) := by
    unfold modelRelevantChanged updateOutputConfig
    push_neg
    exact ⟨rfl, rfl, rfl⟩
  simp [step, hch]

/-- Claim C10: the exported default configuration is exactly
`{debug: false, device: cpu, model: isnet_fp16, output: {format:
image/png, quality: 0.8, type: foreground}}`, and calling `loadModel` or
`processImageBackgroundRemoval` with the configuration argument omitted
behaves exactly as calling it with `defaultConfig`. -/
theorem omitted_config_behaves_as_default (env : Env) (isModelLoaded : Bool)
    (imageFile : File) :
    defaultConfig =
        ({ debug := false
           device := "cpu"
           model := "isnet_fp16"
           output :=
             { format := "image/png"
               quality := 0.8
               type := "foreground" } } : Config) ∧
      loadModelWithDefault env isModelLoaded none = loadModel env isModelLoaded defaultConfig ∧
      processImageWithDefault env isModelLoaded imageFile none =
        processImageBackgroundRemoval env isModelLoaded imageFile defaultConfig :=
  ⟨rfl, rfl, rfl⟩
